import Mathlib

/-!
Shallow embedding of the contenttruck upload/delete orchestration core:
the `db` package's partition / quota-ledger operations (src/unnamed/part_001),
the path resolution performed by the HTTP handlers, and the `Upload` and
`Delete` handlers of src/httpserver/api_route.go.

SQL statements are interpreted over the relations the spec's §6 describes
(partitions name PK, partitions_usage name PK, partitions_files composite
PK (name, file_path)); each interpreting definition's comment cites the
query it embeds.  External collaborators (postgres connection errors, the
S3 client, the validator pipeline's verdict on a body) are modelled as
boolean fault/outcome flags supplied to each call.
-/

namespace Contenttruck

/-- Equality of handler results (the `Except`-shaped return values) is
decidable when both components' equality is. -/
instance {ε α : Type} [DecidableEq ε] [DecidableEq α] : DecidableEq (Except ε α) :=
  fun a b =>
    match a, b with
    | .ok x, .ok y =>
      if h : x = y then .isTrue (by rw [h]) else .isFalse (by simp [h])
    | .error x, .error y =>
      if h : x = y then .isTrue (by rw [h]) else .isFalse (by simp [h])
    | .ok _, .error _ => .isFalse (by simp)
    | .error _, .ok _ => .isFalse (by simp)

/-- db.Partition (src/unnamed/part_001 lines 10-16).  `maxSize` is a Go
uint32; its value is below 2^32. -/
structure Partition where
  name : String
  maxSize : Nat
  pathPrefix : String
  exact : Bool
  validates : String
deriving DecidableEq, Repr

/-! ### Go `path.Clean` / `path.Join`

The handlers resolve object paths with the Go standard library's
`path.Join` (api_route.go lines 282-287 and 421-426), which is
`Clean(strings.Join(elems, "/"))` over the non-empty elements.  `Clean`
is embedded segment-wise: split on `'/'`, drop empty and "." segments,
let ".." pop the previous segment (or be kept / dropped at the start of
a relative / rooted path), and re-join. -/

/-- Split a character list on `'/'` (keeping empty segments, as
`strings.Split` would). -/
def splitSegs : List Char → List (List Char)
  | [] => [[]]
  | c :: rest =>
    match splitSegs rest with
    | [] => [[c]]
    | s :: ss => if c = '/' then [] :: s :: ss else (c :: s) :: ss

/-- The segment stack of Go `path.Clean`: processes `segs` against the
accumulated `stack` (held in reverse), returning the cleaned segments in
order.  `rooted` tells whether the original path began with `'/'` (a
leading ".." is dropped on a rooted path, kept on a relative one). -/
def cleanSegs (rooted : Bool) : List (List Char) → List (List Char) → List (List Char)
  | stack, [] => stack.reverse
  | stack, seg :: rest =>
    if seg = [] ∨ seg = ['.'] then cleanSegs rooted stack rest
    else if seg = ['.', '.'] then
      match stack with
      | s :: stack' =>
        if s = ['.', '.'] then cleanSegs rooted (seg :: s :: stack') rest
        else cleanSegs rooted stack' rest
      | [] => if rooted then cleanSegs rooted [] rest else cleanSegs rooted [seg] rest
    else cleanSegs rooted (seg :: stack) rest

/-- Join segments back with `'/'`. -/
def joinSegs : List (List Char) → List Char
  | [] => []
  | [s] => s
  | s :: rest => s ++ '/' :: joinSegs rest

/-- Go `path.Clean`. -/
def pathClean (s : String) : String :=
  match s.data with
  | [] => "."
  | c :: rest =>
    let rooted := c = '/'
    let body := joinSegs (cleanSegs rooted [] (splitSegs (c :: rest)))
    if rooted then ⟨'/' :: body⟩
    else if body = [] then "." else ⟨body⟩

/-- Go `path.Join` applied to two elements, as the handlers use it:
empty elements are skipped and the rest is cleaned. -/
def pathJoin2 (a b : String) : String :=
  if a = "" ∧ b = "" then ""
  else if a = "" then pathClean b
  else pathClean (a ++ "/" ++ b)

/-- The path resolution both `Upload` (api_route.go lines 282-287) and
`Delete` (lines 421-426) perform: start from the partition's
`PathPrefix`; join the client-supplied relative path under it unless the
partition is exact or the relative path is empty. -/
def resolvePath (pt : Partition) (rel : String) : String :=
  if pt.exact = false ∧ rel ≠ "" then pathJoin2 pt.pathPrefix rel else pt.pathPrefix

example : pathClean "images//a.png" = "images/a.png" := by decide
example : pathClean "images/../secret" = "secret" := by decide
example : pathJoin2 "images/" "a.png" = "images/a.png" := by decide
example : pathJoin2 "images" "/a.png" = "images/a.png" := by decide
example : pathJoin2 "images" "../secret" = "secret" := by decide
example : pathClean "a/" = "a" := by decide
example : pathClean "/.." = "/" := by decide
example : pathClean "a/../../b" = "../b" := by decide

/-! ### The metadata store

The four relations of §6, as finitely-supported maps.  `partitions` and
`partitions_usage` have `name` as primary key; `partitions_files` has the
composite primary key `(name, file_path)` (modelled from the spec: the
schema DDL itself is not among the source files, §6 declares the keys);
`keys` maps a key to its partition names. -/
structure DBState where
  partitions : String → Option Partition
  usage : String → Option Nat
  files : String → String → Bool
  keys : String → List String

/-- The effective recorded usage of a partition: the usage row's value,
with an absent row counting as zero (spec §3, PartitionUsage). -/
def usageOf (db : DBState) (name : String) : Nat :=
  (db.usage name).getD 0

/-- DB.GetPartitionsByKey (src/unnamed/part_001 lines 43-60): the INNER
JOIN of the key's rows with `partitions`, dropping dangling names. -/
def getPartitionsByKey (db : DBState) (key : String) : List Partition :=
  (db.keys key).filterMap db.partitions

/-- The store-level outcome of `partitionSizeWriteQuery` (src/unnamed/
part_001 lines 66-71): the conditional INSERT ... ON CONFLICT DO UPDATE.
The inserted `name` value is the subquery `SELECT name FROM partitions
WHERE name = $1 AND max_size >= $2`; a NULL there violates the not-null
key constraint.  On conflict the update is guarded by
`max_size >= u.size + $2`; a failed guard affects zero rows. -/
inductive UsageWriteRaw where
  | ok (db : DBState)
  | notNullViolation
  | zeroRows
deriving Nonempty

/-- Evaluate `partitionSizeWriteQuery` against the store. -/
def usageWriteRaw (db : DBState) (name : String) (size : Nat) : UsageWriteRaw :=
  match db.partitions name with
  | none => .notNullViolation
  | some pt =>
    if pt.maxSize < size then .notNullViolation
    else
      match db.usage name with
      | none =>
        .ok { db with usage := fun m => if m = name then some size else db.usage m }
      | some u =>
        if u + size ≤ pt.maxSize then
          .ok { db with usage := fun m => if m = name then some (u + size) else db.usage m }
        else .zeroRows

/-- The error values the db package raises around the usage pool. -/
inductive DbErr where
  | fileTooLarge
  | connErr
deriving DecidableEq, Repr

/-- DB.WriteToPartitionUsagePool (src/unnamed/part_001 lines 77-90): runs
the conditional write and maps both of its failure shapes — the not-null
constraint violation and the zero-rows-affected update — to
`ErrFileTooLarge`.  A postgres statement that errors or affects zero rows
leaves the store unchanged, which the `Except` shape reflects. -/
def writeToPartitionUsagePool (db : DBState) (name : String) (size : Nat) :
    Except DbErr DBState :=
  match usageWriteRaw db name size with
  | .ok db' => .ok db'
  | .notNullViolation => .error .fileTooLarge
  | .zeroRows => .error .fileTooLarge

/-- DB.RollbackPartitionUsagePool (src/unnamed/part_001 lines 93-97):
`UPDATE partitions_usage SET size = size - $1 WHERE name = $2 AND
size >= $1`.  When the guard `size >= $1` fails, or no row exists, zero
rows are affected and the store is unchanged (the Go function ignores the
affected count). -/
def rollbackPartitionUsagePool (db : DBState) (name : String) (size : Nat) : DBState :=
  match db.usage name with
  | some u =>
    if size ≤ u then
      { db with usage := fun m => if m = name then some (u - size) else db.usage m }
    else db
  | none => db

/-- DB.WritePartitionFile (src/unnamed/part_001 lines 100-104): a plain
INSERT into `partitions_files`; under the composite primary key an
already-present row makes the statement fail. -/
def writePartitionFile (db : DBState) (name p : String) : Except DbErr DBState :=
  if db.files name p then .error .connErr
  else .ok { db with files := fun n q => if n = name ∧ q = p then true else db.files n q }

/-- DB.DeletePartitionFile (src/unnamed/part_001 lines 161-165): DELETE
by the composite key; deleting an absent row is not an error. -/
def deletePartitionFile (db : DBState) (name p : String) : DBState :=
  { db with files := fun n q => if n = name ∧ q = p then false else db.files n q }

/-- The blob store: object sizes by path. -/
structure S3State where
  objects : String → Option Nat

/-- Blob-store put: (over)writes the object at `p`. -/
def s3PutObject (s3 : S3State) (p : String) (size : Nat) : S3State :=
  ⟨fun q => if q = p then some size else s3.objects q⟩

/-- Blob-store delete: idempotent removal. -/
def s3DeleteObject (s3 : S3State) (p : String) : S3State :=
  ⟨fun q => if q = p then none else s3.objects q⟩

/-! ### The handlers (src/httpserver/api_route.go)

Each external call that can fail for a reason the state does not
determine (a connection error, an S3 error, the validator pipeline's
verdict on the request body) is driven by one boolean of `Faults`. -/

/-- Failure/outcome flags for the externally-decided calls of one
request. -/
structure Faults where
  getKeysErr : Bool
  reserveConnErr : Bool
  validationFails : Bool
  s3PutErr : Bool
  fileWriteConnErr : Bool
  rollbackConnErr : Bool
  headConnErr : Bool
  s3DeleteErr : Bool
  fileDeleteConnErr : Bool
deriving DecidableEq, Repr

/-- A request in which every external call succeeds (and validation
passes). -/
def noFaults : Faults :=
  ⟨false, false, false, false, false, false, false, false, false⟩

/-- The ErrorCode constants of api_route.go that the two handlers
surface (the spec's taxonomy names `ErrorCodeTooLarge` QuotaExceeded). -/
inductive ErrCode where
  | internalServerError
  | invalidKey
  | invalidPartition
  | invalidHeaders
  | tooLarge
  | validationFailed
  | invalidPath
deriving DecidableEq, Repr

/-- The externally-visible actions a handler performs, in order.
`reserve`/`rollback` carry the size handed to the ledger and whether the
call succeeded. -/
inductive Event where
  | reserve (size : Nat) (ok : Bool)
  | validate
  | s3PutEv (path : String)
  | fileWrite (path : String)
  | rollback (size : Nat) (ok : Bool)
  | s3Head (path : String)
  | s3DeleteEv (path : String)
  | fileDelete (path : String)
deriving DecidableEq, Repr

/-- UploadRequest (api_route.go lines 245-249). -/
structure UploadRequest where
  key : String
  partition : String
  relativePath : String
deriving DecidableEq, Repr

/-- DeleteRequest (api_route.go lines 389-393). -/
structure DeleteRequest where
  key : String
  partition : String
  relativePath : String
deriving DecidableEq, Repr

/-- The outcome of one Upload call: the handler's return value and the
resulting stores, with the action trace. -/
structure UploadResult where
  res : Except ErrCode Nat
  db : DBState
  s3 : S3State
  events : List Event

/-- The deferred compensation of api_route.go lines 317-325: release the
reservation; a release failure is only logged. -/
def compensate (f : Faults) (db : DBState) (name : String) (n : Nat) : DBState × Event :=
  if f.rollbackConnErr then (db, .rollback n false)
  else (rollbackPartitionUsagePool db name n, .rollback n true)

/-- Go's `uint32(x)` on a non-negative int64. -/
def toUint32 (x : Nat) : Nat := x % 4294967296

/-- apiServer.Upload (api_route.go lines 257-386).  `contentLength` is
`r.ContentLength` with `none` for the -1 sentinel; the body itself is
outside the model (the validator verdict is `f.validationFails`, the
stored object records the declared length). -/
def upload (db : DBState) (s3 : S3State) (f : Faults) (req : UploadRequest)
    (contentLength : Option Nat) : UploadResult :=
  -- getKeys (lines 222-242, 259-262)
  if f.getKeysErr then ⟨.error .internalServerError, db, s3, []⟩ else
  let parts := getPartitionsByKey db req.key
  if parts.isEmpty then ⟨.error .invalidKey, db, s3, []⟩ else
  -- find the requested partition (lines 264-280)
  match parts.find? (fun x => x.name = req.partition) with
  | none => ⟨.error .invalidPartition, db, s3, []⟩
  | some pt =>
    -- resolve the path (lines 282-287)
    let p := resolvePath pt req.relativePath
    -- Content-Length requirement (lines 289-296)
    match contentLength with
    | none => ⟨.error .invalidHeaders, db, s3, []⟩
    | some len =>
      -- reserve quota for uint32(r.ContentLength) (lines 298-316)
      let n := toUint32 len
      if f.reserveConnErr then ⟨.error .internalServerError, db, s3, [.reserve n false]⟩ else
      match writeToPartitionUsagePool db pt.name n with
      | .error _ => ⟨.error .tooLarge, db, s3, [.reserve n false]⟩
      | .ok db1 =>
        -- from here the deferred rollback is armed (lines 317-325)
        -- validation (lines 331-341)
        if pt.validates ≠ "" ∧ f.validationFails then
          let c := compensate f db1 pt.name n
          ⟨.error .validationFailed, c.1, s3, [.reserve n true, .validate, c.2]⟩
        else
          let ev1 := if pt.validates ≠ "" then [Event.reserve n true, .validate]
                     else [Event.reserve n true]
          -- S3 upload (lines 343-366)
          if f.s3PutErr then
            let c := compensate f db1 pt.name n
            ⟨.error .internalServerError, c.1, s3, ev1 ++ [.s3PutEv p, c.2]⟩
          else
            let s3' := s3PutObject s3 p len
            -- record the PartitionFile row (lines 368-377); a connection
            -- error and a constraint violation land on the same return path,
            -- on which the deferred rollback still runs
            if f.fileWriteConnErr then
              let c := compensate f db1 pt.name n
              ⟨.error .internalServerError, c.1, s3', ev1 ++ [.s3PutEv p, .fileWrite p, c.2]⟩
            else
              match writePartitionFile db1 pt.name p with
              | .error _ =>
                let c := compensate f db1 pt.name n
                ⟨.error .internalServerError, c.1, s3', ev1 ++ [.s3PutEv p, .fileWrite p, c.2]⟩
              | .ok db2 =>
                -- disarm the rollback, report r.ContentLength (lines 379-385)
                ⟨.ok len, db2, s3', ev1 ++ [.s3PutEv p, .fileWrite p]⟩

/-- The outcome of one Delete call. -/
structure DeleteResult where
  res : Except ErrCode Unit
  db : DBState
  s3 : S3State
  events : List Event

/-- apiServer.Delete (api_route.go lines 396-492). -/
def deleteOp (db : DBState) (s3 : S3State) (f : Faults) (req : DeleteRequest) : DeleteResult :=
  -- getKeys and partition lookup (lines 398-419)
  if f.getKeysErr then ⟨.error .internalServerError, db, s3, []⟩ else
  let parts := getPartitionsByKey db req.key
  if parts.isEmpty then ⟨.error .invalidKey, db, s3, []⟩ else
  match parts.find? (fun x => x.name = req.partition) with
  | none => ⟨.error .invalidPartition, db, s3, []⟩
  | some pt =>
    -- resolve the path (lines 421-426)
    let p := resolvePath pt req.relativePath
    -- HEAD the object (lines 428-452): NoSuchKey -> InvalidPath
    if f.headConnErr then ⟨.error .internalServerError, db, s3, [.s3Head p]⟩ else
    match s3.objects p with
    | none => ⟨.error .invalidPath, db, s3, [.s3Head p]⟩
    | some sz =>
      -- delete from S3 (lines 454-466)
      if f.s3DeleteErr then
        ⟨.error .internalServerError, db, s3, [.s3Head p, .s3DeleteEv p]⟩
      else
        let s3' := s3DeleteObject s3 p
        -- delete the PartitionFile row (lines 468-477)
        if f.fileDeleteConnErr then
          ⟨.error .internalServerError, db, s3', [.s3Head p, .s3DeleteEv p, .fileDelete p]⟩
        else
          let db1 := deletePartitionFile db pt.name p
          -- release uint32(*st.ContentLength) (lines 479-488):
          -- a release failure here is returned to the client
          let n := toUint32 sz
          if f.rollbackConnErr then
            ⟨.error .internalServerError, db1, s3',
              [.s3Head p, .s3DeleteEv p, .fileDelete p, .rollback n false]⟩
          else
            ⟨.ok (), rollbackPartitionUsagePool db1 pt.name n, s3',
              [.s3Head p, .s3DeleteEv p, .fileDelete p, .rollback n true]⟩

/-! ### Ledger lemmas -/

/-- A successful conditional write adds exactly `n` to the partition's
effective usage, touches no other partition's usage, and leaves the
other relations alone. -/
theorem usageWrite_ok_usage (db db1 : DBState) (name : String) (n : Nat)
    (h : writeToPartitionUsagePool db name n = .ok db1) :
    usageOf db1 name = usageOf db name + n
      ∧ (∀ m, m ≠ name → usageOf db1 m = usageOf db m)
      ∧ db1.files = db.files ∧ db1.partitions = db.partitions ∧ db1.keys = db.keys := by
  unfold writeToPartitionUsagePool usageWriteRaw at h
  cases hp : db.partitions name with
  | none => simp [hp] at h
  | some pt =>
    simp only [hp] at h
    by_cases hsz : pt.maxSize < n
    · simp [hsz] at h
    · simp only [if_neg hsz] at h
      cases hu : db.usage name with
      | none =>
        simp only [hu] at h
        cases h
        refine ⟨by simp [usageOf, hu], fun m hm => by simp [usageOf, hm], rfl, rfl, rfl⟩
      | some u =>
        simp only [hu] at h
        by_cases hle : u + n ≤ pt.maxSize
        · simp only [if_pos hle] at h
          cases h
          refine ⟨by simp [usageOf, hu], fun m hm => by simp [usageOf, hm], rfl, rfl, rfl⟩
        · simp [if_neg hle] at h

/-- The conditional write succeeds exactly on `usage + n ≤ maxSize`
(an absent usage row counting as zero); otherwise it fails with
`ErrFileTooLarge` — both store-level shapes collapse there. -/
theorem usageWrite_iff (db : DBState) (pt : Partition) (name : String) (n : Nat)
    (hpt : db.partitions name = some pt) :
    (usageOf db name + n ≤ pt.maxSize → ∃ db1, writeToPartitionUsagePool db name n = .ok db1)
      ∧ (pt.maxSize < usageOf db name + n →
          writeToPartitionUsagePool db name n = .error .fileTooLarge) := by
  unfold writeToPartitionUsagePool usageWriteRaw
  simp only [hpt]
  cases hu : db.usage name with
  | none =>
    simp only [usageOf, hu, Option.getD_none, Nat.zero_add]
    constructor
    · intro hle
      rw [if_neg (by omega)]
      exact ⟨_, rfl⟩
    · intro hlt
      rw [if_pos hlt]
  | some u =>
    simp only [usageOf, hu, Option.getD_some]
    constructor
    · intro hle
      rw [if_neg (by omega), if_pos hle]
      exact ⟨_, rfl⟩
    · intro hlt
      by_cases hsz : pt.maxSize < n
      · rw [if_pos hsz]
      · rw [if_neg hsz, if_neg (by omega)]

/-- The release's pointwise effect on effective usage: the named
partition is decremented by `n` when `n` does not exceed its effective
usage and left alone otherwise; no other partition changes. -/
theorem rollback_usage_point (db : DBState) (name : String) (n : Nat) (m : String) :
    usageOf (rollbackPartitionUsagePool db name n) m
      = if m = name then
          (if n ≤ usageOf db name then usageOf db name - n else usageOf db name)
        else usageOf db m := by
  unfold rollbackPartitionUsagePool
  rcases hu : db.usage name with _ | u
  · by_cases hm : m = name
    · subst hm
      simp only [usageOf, hu, Option.getD_none, eq_self_iff_true, if_true]
      split <;> omega
    · simp [usageOf, hm]
  · by_cases hm : m = name
    · subst hm
      simp only [usageOf, hu, Option.getD_some, if_pos rfl]
      by_cases hnu : n ≤ u
      · simp [if_pos hnu, usageOf]
      · simp [if_neg hnu, usageOf, hu]
    · by_cases hnu : n ≤ u
      · simp [if_pos hnu, usageOf, hm]
      · simp [if_neg hnu, usageOf, hm]

/-- Releasing the size just reserved restores every partition's
effective usage to its value before the reservation. -/
theorem usage_roundtrip (db db1 : DBState) (name : String) (n : Nat)
    (h : writeToPartitionUsagePool db name n = .ok db1) :
    ∀ m, usageOf (rollbackPartitionUsagePool db1 name n) m = usageOf db m := by
  intro m
  obtain ⟨h1, h2, -, -, -⟩ := usageWrite_ok_usage db db1 name n h
  rw [rollback_usage_point]
  by_cases hm : m = name
  · subst hm
    rw [if_pos rfl, h1, if_pos (by omega)]
    omega
  · rw [if_neg hm]
    exact h2 m hm

/-- The release never touches `files`, `partitions` or `keys`. -/
theorem rollback_frame (db : DBState) (name : String) (n : Nat) :
    (rollbackPartitionUsagePool db name n).files = db.files
      ∧ (rollbackPartitionUsagePool db name n).partitions = db.partitions
      ∧ (rollbackPartitionUsagePool db name n).keys = db.keys := by
  unfold rollbackPartitionUsagePool
  split
  · split <;> exact ⟨rfl, rfl, rfl⟩
  · exact ⟨rfl, rfl, rfl⟩

/-- A successful PartitionFile insert requires the row to be absent,
creates exactly that row, and leaves usage alone. -/
theorem writeFile_ok (db db1 : DBState) (name p : String)
    (h : writePartitionFile db name p = .ok db1) :
    db.files name p = false ∧ db1.files name p = true
      ∧ (∀ n q, ¬(n = name ∧ q = p) → db1.files n q = db.files n q)
      ∧ db1.usage = db.usage := by
  unfold writePartitionFile at h
  by_cases hf : db.files name p
  · simp [hf] at h
  · simp only [if_neg hf] at h
    cases h
    refine ⟨by simpa using hf, by simp, fun n q hnq => by simp [if_neg hnq], rfl⟩

/-- The state reached by compensating a successful reservation: every
partition's effective usage is back at its pre-reservation value and the
file relation is untouched. -/
theorem compensated_state (db db1 : DBState) (name : String) (n : Nat)
    (h : writeToPartitionUsagePool db name n = .ok db1) (m : String) :
    usageOf (rollbackPartitionUsagePool db1 name n) m = usageOf db m
      ∧ ∀ a b, (rollbackPartitionUsagePool db1 name n).files a b = db.files a b := by
  refine ⟨usage_roundtrip db db1 name n h m, fun a b => ?_⟩
  obtain ⟨-, -, hf, -, -⟩ := usageWrite_ok_usage db db1 name n h
  rw [(rollback_frame db1 name n).1, hf]

/-! ### Handler characterizations -/

set_option maxHeartbeats 2000000 in
/-- A successful upload reported size `sz = L` and went through a
successful reservation of `uint32(L)` followed by a successful
PartitionFile insert at the resolved path. -/
theorem upload_ok_char (db : DBState) (s3 : S3State) (f : Faults) (req : UploadRequest)
    (L sz : Nat) (pt : Partition)
    (hpt : (getPartitionsByKey db req.key).find? (fun x => x.name = req.partition) = some pt) :
    (upload db s3 f req (some L)).res = .ok sz →
    sz = L ∧ ∃ db1, writeToPartitionUsagePool db pt.name (toUint32 L) = .ok db1
      ∧ writePartitionFile db1 pt.name (resolvePath pt req.relativePath)
          = .ok (upload db s3 f req (some L)).db := by
  simp only [upload, compensate, hpt]
  repeat' split
  all_goals intro hres
  all_goals simp_all

set_option maxHeartbeats 2000000 in
/-- Any failed upload whose compensating release does not itself fail
leaves every partition's effective usage at its pre-call value and the
file relation untouched (even a step-7 PartitionFile failure: that
return path also runs the deferred release). -/
theorem upload_err_effects (db : DBState) (s3 : S3State) (f : Faults) (req : UploadRequest)
    (L : Nat) (m : String) (e : ErrCode) :
    f.rollbackConnErr = false →
    (upload db s3 f req (some L)).res = .error e →
    usageOf (upload db s3 f req (some L)).db m = usageOf db m
      ∧ ∀ a b, (upload db s3 f req (some L)).db.files a b = db.files a b := by
  simp only [upload, compensate]
  repeat' split
  all_goals intro hrb hres
  all_goals simp_all
  all_goals exact compensated_state _ _ _ _ (by assumption) m

/-! ### Concrete fixtures for witnesses and counterexamples -/

/-- A prefix-mode partition, ceiling 100 bytes, no validation policy. -/
def ptPix : Partition := ⟨"pix", 100, "img", false, ""⟩

/-- A store holding `ptPix`, no usage row, no file rows, and the key
"k" authorised for it. -/
def dbPix : DBState :=
  ⟨fun n => if n = "pix" then some ptPix else none,
   fun _ => none,
   fun _ _ => false,
   fun k => if k = "k" then ["pix"] else []⟩

/-- `dbPix` with a usage row of `u` for "pix" and the file "img/a"
recorded. -/
def dbPixWith (u : Nat) : DBState :=
  ⟨fun n => if n = "pix" then some ptPix else none,
   fun n => if n = "pix" then some u else none,
   fun n q => n = "pix" ∧ q = "img/a",
   fun k => if k = "k" then ["pix"] else []⟩

/-- An empty blob store. -/
def s3Empty : S3State := ⟨fun _ => none⟩

/-- A blob store holding the 5-byte object "img/a". -/
def s3A : S3State := ⟨fun q => if q = "img/a" then some 5 else none⟩

/-- Faults: only the PartitionFile INSERT fails. -/
def faultsFileWrite : Faults := { noFaults with fileWriteConnErr := true }

/-- Faults: only the quota release fails. -/
def faultsRollback : Faults := { noFaults with rollbackConnErr := true }

/-- A prefix-mode partition whose namespace is "images". -/
def ptImages : Partition := ⟨"imgpart", 100, "images", false, ""⟩

/-- A store holding `ptImages` with key "k2" authorised for it. -/
def dbImages : DBState :=
  ⟨fun n => if n = "imgpart" then some ptImages else none,
   fun _ => none,
   fun _ _ => false,
   fun k => if k = "k2" then ["imgpart"] else []⟩

/-- A blob store holding a 4-byte object at "secret". -/
def s3Secret : S3State := ⟨fun q => if q = "secret" then some 4 else none⟩

/-! ### The claims -/

/-- C2: a quota reservation of size `n` on a partition with ceiling `c`
and recorded usage `u` (zero when no row exists) succeeds, raising the
recorded usage to `u + n` and touching no other partition, iff
`u + n ≤ c`; otherwise it fails with the single `ErrFileTooLarge` kind
(the claim's QuotaExceeded), into which both store-level shapes collapse.
A failing conditional statement writes nothing, so usage is unchanged on
failure (the `Except` shape returns no modified store). -/
theorem c2_reservation_iff (db : DBState) (pt : Partition) (name : String) (n : Nat)
    (hpt : db.partitions name = some pt) :
    (usageOf db name + n ≤ pt.maxSize →
       ∃ db1, writeToPartitionUsagePool db name n = .ok db1
         ∧ usageOf db1 name = usageOf db name + n
         ∧ ∀ m, m ≠ name → usageOf db1 m = usageOf db m)
    ∧ (pt.maxSize < usageOf db name + n →
       writeToPartitionUsagePool db name n = .error .fileTooLarge) := by
  obtain ⟨hok, herr⟩ := usageWrite_iff db pt name n hpt
  refine ⟨fun hle => ?_, herr⟩
  obtain ⟨db1, h1⟩ := hok hle
  obtain ⟨ha, hb, -, -, -⟩ := usageWrite_ok_usage db db1 name n h1
  exact ⟨db1, h1, ha, hb⟩

/-- C2 witness: on `dbPix` (ceiling 100, no usage row) a reservation of
10 succeeds and records usage 10; a reservation of 101 fails with
`ErrFileTooLarge`. -/
theorem c2_witness :
    (∃ db1, writeToPartitionUsagePool dbPix "pix" 10 = .ok db1
       ∧ usageOf db1 "pix" = usageOf dbPix "pix" + 10
       ∧ ∀ m, m ≠ "pix" → usageOf db1 m = usageOf dbPix m)
    ∧ writeToPartitionUsagePool dbPix "pix" 101 = .error .fileTooLarge :=
  ⟨(c2_reservation_iff dbPix ptPix "pix" 10 (by decide)).1 (by decide),
   (c2_reservation_iff dbPix ptPix "pix" 101 (by decide)).2 (by decide)⟩

/-- C4 counterexample: with recorded usage 5, a release of 7 affects
zero rows and leaves usage 5 — not `5 - min 7 5 = 0` as the claim's
floor-at-usage reading would have it. -/
theorem c4_counterexample :
    usageOf (rollbackPartitionUsagePool (dbPixWith 5) "pix" 7) "pix" = 5
      ∧ usageOf (rollbackPartitionUsagePool (dbPixWith 5) "pix" 7) "pix"
          ≠ usageOf (dbPixWith 5) "pix" - min 7 (usageOf (dbPixWith 5) "pix") := by
  decide

/-- C4 (amended): a release of `n` decrements the partition's recorded
usage by `n` when `n` is at most the recorded usage, and otherwise
affects zero rows, leaving the usage unchanged (it does not remove
"what exists"); other partitions are never touched. -/
theorem c4_release_guarded (db : DBState) (name : String) (n : Nat) (m : String) :
    usageOf (rollbackPartitionUsagePool db name n) m
      = if m = name then
          (if n ≤ usageOf db name then usageOf db name - n else usageOf db name)
        else usageOf db m :=
  rollback_usage_point db name n m

/-- C8: path resolution — exact mode ignores the relative path; prefix
mode with an empty relative path yields the bare prefix; joining
normalises the separator in both the trailing-slash-on-prefix and
leading-slash-on-relative-path shapes. -/
theorem c8_path_resolution :
    (∀ (pt : Partition) (rel : String), pt.exact = true → resolvePath pt rel = pt.pathPrefix)
    ∧ (∀ pt : Partition, pt.exact = false → resolvePath pt "" = pt.pathPrefix)
    ∧ resolvePath ⟨"p", 100, "images/", false, ""⟩ "a.png" = "images/a.png"
    ∧ resolvePath ⟨"p", 100, "images", false, ""⟩ "/a.png" = "images/a.png" := by
  refine ⟨fun pt rel hx => ?_, fun pt hx => ?_, by decide, by decide⟩
  · simp [resolvePath, hx]
  · simp [resolvePath]

/-- C8 witness: the general clauses at concrete partitions. -/
theorem c8_witness :
    resolvePath ⟨"e", 50, "fixed/path.png", true, ""⟩ "other.png" = "fixed/path.png"
      ∧ resolvePath ⟨"p", 100, "images", false, ""⟩ "" = "images" :=
  ⟨c8_path_resolution.1 ⟨"e", 50, "fixed/path.png", true, ""⟩ "other.png" rfl,
   c8_path_resolution.2.1 ⟨"p", 100, "images", false, ""⟩ rfl⟩

/-- C1 counterexample: on `dbPix` (no usage row, ceiling 100) an upload
of 10 bytes whose PartitionFile write fails returns InternalError and
the reservation IS released: recorded usage ends at 0, not at the
post-reservation value 10 the claim requires. -/
theorem c1_counterexample :
    (upload dbPix s3Empty faultsFileWrite ⟨"k", "pix", "a"⟩ (some 10)).res
        = .error .internalServerError
      ∧ usageOf (upload dbPix s3Empty faultsFileWrite ⟨"k", "pix", "a"⟩ (some 10)).db "pix" = 0
      ∧ usageOf (upload dbPix s3Empty faultsFileWrite ⟨"k", "pix", "a"⟩ (some 10)).db "pix"
          ≠ 10 := by
  decide

set_option maxHeartbeats 2000000 in
/-- C1 (amended): if recording the PartitionFile row fails after the
blob-store write, the upload fails with InternalError but the quota
reservation IS released — the deferred compensation runs on that return
path too, so (when the release itself succeeds) recorded usage returns
to its pre-call value rather than staying at its post-reservation
value. -/
theorem c1_file_write_failure_releases (db : DBState) (s3 : S3State) (f : Faults)
    (req : UploadRequest) (L : Nat) (m : String) :
    f.rollbackConnErr = false →
    (∃ q, Event.fileWrite q ∈ (upload db s3 f req (some L)).events) →
    (upload db s3 f req (some L)).res = .error .internalServerError →
    usageOf (upload db s3 f req (some L)).db m = usageOf db m := by
  simp only [upload, compensate]
  repeat' split
  all_goals intro hrb hev hres
  all_goals simp_all
  all_goals exact usage_roundtrip _ _ _ _ (by assumption) m

/-- C1 witness: the amended behaviour at the counterexample's input. -/
theorem c1_witness :
    usageOf (upload dbPix s3Empty faultsFileWrite ⟨"k", "pix", "a"⟩ (some 10)).db "pix"
      = usageOf dbPix "pix" :=
  c1_file_write_failure_releases dbPix s3Empty faultsFileWrite ⟨"k", "pix", "a"⟩ 10 "pix"
    rfl ⟨"img/a", by decide⟩ (by decide)

/-- C3 counterexample: a successful upload with declared length 2^32 on
`dbPix` reports size 2^32 but raises recorded usage by 0 (the uint32
truncation), so usage does not increase by the declared length. -/
theorem c3_counterexample :
    (upload dbPix s3Empty noFaults ⟨"k", "pix", "a"⟩ (some 4294967296)).res = .ok 4294967296
      ∧ usageOf (upload dbPix s3Empty noFaults ⟨"k", "pix", "a"⟩ (some 4294967296)).db "pix" = 0
      ∧ usageOf (upload dbPix s3Empty noFaults ⟨"k", "pix", "a"⟩ (some 4294967296)).db "pix"
          ≠ usageOf dbPix "pix" + 4294967296 := by
  decide

/-- C3 (amended): on success the response reports the declared length
`L`, the PartitionFile row for the resolved path did not exist before
and exists after (any other row is untouched), and recorded usage rose
by exactly `uint32(L) = L mod 2^32` (equal to `L` whenever
`L < 2^32`); on any failure — in particular at steps 3-6 — provided the
compensating release itself succeeds, recorded usage is back at its
pre-call value and no PartitionFile row is created. -/
theorem c3_upload_effects (db : DBState) (s3 : S3State) (f : Faults) (req : UploadRequest)
    (L : Nat) (m : String) (pt : Partition)
    (hpt : (getPartitionsByKey db req.key).find? (fun x => x.name = req.partition) = some pt) :
    (∀ sz, (upload db s3 f req (some L)).res = .ok sz →
       sz = L
       ∧ db.files pt.name (resolvePath pt req.relativePath) = false
       ∧ (upload db s3 f req (some L)).db.files pt.name (resolvePath pt req.relativePath) = true
       ∧ (∀ a b, ¬(a = pt.name ∧ b = resolvePath pt req.relativePath) →
            (upload db s3 f req (some L)).db.files a b = db.files a b)
       ∧ usageOf (upload db s3 f req (some L)).db pt.name
           = usageOf db pt.name + L % 4294967296
       ∧ (∀ m', m' ≠ pt.name →
            usageOf (upload db s3 f req (some L)).db m' = usageOf db m'))
    ∧ (f.rollbackConnErr = false →
       ∀ e, (upload db s3 f req (some L)).res = .error e →
         usageOf (upload db s3 f req (some L)).db m = usageOf db m
           ∧ ∀ a b, (upload db s3 f req (some L)).db.files a b = db.files a b) := by
  constructor
  · intro sz hres
    obtain ⟨hszL, db1, hw, hfw⟩ := upload_ok_char db s3 f req L sz pt hpt hres
    obtain ⟨hu1, hu2, hfiles1, -, -⟩ := usageWrite_ok_usage db db1 pt.name (toUint32 L) hw
    obtain ⟨hf0, hf1, hfother, husage⟩ :=
      writeFile_ok db1 (upload db s3 f req (some L)).db pt.name
        (resolvePath pt req.relativePath) hfw
    refine ⟨hszL, by rw [← hfiles1]; exact hf0, hf1, ?_, ?_, ?_⟩
    · intro a b hab
      rw [hfother a b hab, hfiles1]
    · simp only [usageOf, husage]
      simpa [usageOf, toUint32] using hu1
    · intro m' hm'
      have := hu2 m' hm'
      simpa only [usageOf, husage] using this
  · intro hrb e hres
    exact upload_err_effects db s3 f req L m e hrb hres

/-- C3 witness: the success clause at a concrete 10-byte upload. -/
theorem c3_witness :
    usageOf (upload dbPix s3Empty noFaults ⟨"k", "pix", "a"⟩ (some 10)).db "pix"
      = usageOf dbPix "pix" + 10 % 4294967296 :=
  ((c3_upload_effects dbPix s3Empty noFaults ⟨"k", "pix", "a"⟩ 10 "pix" ptPix
      (by decide)).1 10 (by decide)).2.2.2.2.1

/-- C5 counterexample: a delete on which only the quota release fails
reaches the release step (the trace shows the failed release of the
HEAD-observed 5 bytes) and returns InternalError to the client — the
release failure IS the client-visible result, unlike the claim's
"still returns the success result". -/
theorem c5_counterexample :
    (deleteOp (dbPixWith 50) s3A faultsRollback ⟨"k", "pix", "a"⟩).res
        = .error .internalServerError
      ∧ Event.rollback 5 false ∈ (deleteOp (dbPixWith 50) s3A faultsRollback ⟨"k", "pix", "a"⟩).events := by
  decide

set_option maxHeartbeats 2000000 in
/-- C5 (amended): in upload compensation a release failure is non-fatal
— the upload's client-visible result is the same whether or not the
release fails; but in the delete sequence a release failure at step 5 is
returned to the client as InternalError instead of success. -/
theorem c5_release_fate (db : DBState) (s3 : S3State) (f : Faults) :
    (∀ (req : UploadRequest) (cl : Option Nat) (b : Bool),
       (upload db s3 { f with rollbackConnErr := b } req cl).res
         = (upload db s3 f req cl).res)
    ∧ (∀ req : DeleteRequest, f.rollbackConnErr = true →
       (∃ n, Event.rollback n false ∈ (deleteOp db s3 f req).events) →
       (deleteOp db s3 f req).res = .error .internalServerError) := by
  constructor
  · intro req cl b
    simp only [upload, compensate]
    repeat' split
    all_goals simp_all
  · intro req
    simp only [deleteOp]
    repeat' split
    all_goals intro hrb hev
    all_goals simp_all

/-- Whether a trace starts with a successful quota reservation. -/
def startsWithReserveOk : List Event → Bool
  | .reserve _ true :: _ => true
  | _ => false

set_option maxHeartbeats 2000000 in
/-- C6: the reservation is the admission gate — whenever validation ran
or a blob-store put (to any path `a`) was issued, the trace begins with
a successful reservation; a QuotaExceeded reservation failure means no
validation and no blob-store put (to any path `q`) happened; a missing
Content-Length means no external action at all. -/
theorem c6_reserve_gate (db : DBState) (s3 : S3State) (f : Faults) (req : UploadRequest)
    (cl : Option Nat) (q a : String) :
    ((Event.validate ∈ (upload db s3 f req cl).events
        ∨ Event.s3PutEv a ∈ (upload db s3 f req cl).events) →
      startsWithReserveOk (upload db s3 f req cl).events = true)
    ∧ ((upload db s3 f req cl).res = .error .tooLarge →
        Event.validate ∉ (upload db s3 f req cl).events
          ∧ Event.s3PutEv q ∉ (upload db s3 f req cl).events)
    ∧ (cl = none → (upload db s3 f req cl).events = []) := by
  refine ⟨?_, ?_, ?_⟩
  · simp only [upload, compensate]
    repeat' split
    all_goals intro h
    all_goals simp_all [startsWithReserveOk]
  · simp only [upload, compensate]
    repeat' split
    all_goals intro h
    all_goals simp_all
  · intro hcl
    subst hcl
    simp only [upload, compensate]
    repeat' split
    all_goals simp_all

/-- C7 counterexample: with recorded usage 3 and a 5-byte object (per
HEAD), the delete succeeds, removes the row, but the release affects
zero rows: usage stays 3 instead of decreasing by the observed size. -/
theorem c7_counterexample :
    (deleteOp (dbPixWith 3) s3A noFaults ⟨"k", "pix", "a"⟩).res = .ok ()
      ∧ usageOf (deleteOp (dbPixWith 3) s3A noFaults ⟨"k", "pix", "a"⟩).db "pix" = 3
      ∧ usageOf (dbPixWith 3) "pix"
          ≠ usageOf (deleteOp (dbPixWith 3) s3A noFaults ⟨"k", "pix", "a"⟩).db "pix" + 5 := by
  decide

/-- C7 (amended): a fault-free delete of an object whose HEAD-observed
size is `sz` succeeds, removes the PartitionFile row at the resolved
path, and invokes the release with `uint32(sz)` — never a value from the
request, which carries none — decrementing recorded usage by that amount
when it does not exceed recorded usage and leaving it unchanged
otherwise; a HEAD that reports the object absent fails the delete with
InvalidPath. -/
theorem c7_delete_effects (db : DBState) (s3 : S3State) (req : DeleteRequest)
    (pt : Partition) (sz : Nat)
    (hpt : (getPartitionsByKey db req.key).find? (fun x => x.name = req.partition) = some pt) :
    (s3.objects (resolvePath pt req.relativePath) = some sz →
      (deleteOp db s3 noFaults req).res = .ok ()
      ∧ (deleteOp db s3 noFaults req).db.files pt.name (resolvePath pt req.relativePath) = false
      ∧ usageOf (deleteOp db s3 noFaults req).db pt.name
          = (if toUint32 sz ≤ usageOf db pt.name then usageOf db pt.name - toUint32 sz
             else usageOf db pt.name)
      ∧ (∀ m, m ≠ pt.name → usageOf (deleteOp db s3 noFaults req).db m = usageOf db m))
    ∧ (s3.objects (resolvePath pt req.relativePath) = none →
       (deleteOp db s3 noFaults req).res = .error .invalidPath) := by
  have hne : (getPartitionsByKey db req.key).isEmpty = false := by
    rcases h : getPartitionsByKey db req.key with _ | ⟨a, l⟩
    · rw [h] at hpt; simp at hpt
    · simp
  constructor
  · intro hobj
    simp only [deleteOp, noFaults, hne, hpt, hobj, Bool.false_eq_true, if_false]
    refine ⟨by simp, ?_, ?_, ?_⟩
    · rw [(rollback_frame _ _ _).1]
      simp [deletePartitionFile]
    · rw [rollback_usage_point, if_pos rfl]
      rfl
    · intro m hm
      rw [rollback_usage_point, if_neg hm]
      rfl
  · intro hobj
    simp [deleteOp, noFaults, hne, hpt, hobj]

/-- C7 witness: the success clause at a concrete delete (usage 50,
object size 5: usage drops to 45) and the absent clause on an empty blob
store. -/
theorem c7_witness :
    usageOf (deleteOp (dbPixWith 50) s3A noFaults ⟨"k", "pix", "a"⟩).db ptPix.name = 45
      ∧ (deleteOp (dbPixWith 50) s3Empty noFaults ⟨"k", "pix", "a"⟩).res
          = .error .invalidPath := by
  constructor
  · have h := ((c7_delete_effects (dbPixWith 50) s3A ⟨"k", "pix", "a"⟩ ptPix 5
      (by decide)).1 (by decide)).2.2.1
    rw [h]
    decide
  · exact (c7_delete_effects (dbPixWith 50) s3Empty ⟨"k", "pix", "a"⟩ ptPix 5
      (by decide)).2 (by decide)

set_option maxHeartbeats 2000000 in
/-- C9: every size handed to the quota ledger during an upload with
declared Content-Length `L` — the reservation's and any compensating
release's — is `uint32(L) = L mod 2^32`, while a successful response
reports `L` itself; for `L ≥ 2^32` the amount charged differs from the
reported size. -/
theorem c9_uint32_truncation (db : DBState) (s3 : S3State) (f : Faults) (req : UploadRequest)
    (L : Nat) :
    (∀ n ok, (Event.reserve n ok ∈ (upload db s3 f req (some L)).events
        ∨ Event.rollback n ok ∈ (upload db s3 f req (some L)).events) → n = L % 4294967296)
    ∧ (∀ sz, (upload db s3 f req (some L)).res = .ok sz → sz = L)
    ∧ (4294967296 ≤ L → L % 4294967296 ≠ L) := by
  refine ⟨fun n ok h => ?_, fun sz h => ?_, fun hL => ?_⟩
  · simp only [upload, compensate] at h
    repeat' split at h
    all_goals simp_all [toUint32]
    all_goals tauto
  · simp only [upload, compensate] at h
    repeat' split at h
    all_goals simp_all
  · have := Nat.mod_lt L (show 0 < 4294967296 by norm_num)
    omega

/-- C10: the prefix-mode join collapses ".." segments, so a
client-supplied relative path can resolve outside the prefix namespace:
"images" + "../secret" resolves to "secret", which does not extend
"images"; an Upload writes the blob there and a Delete HEADs it there. -/
theorem c10_dotdot_escape :
    resolvePath ptImages "../secret" = "secret"
    ∧ List.isPrefixOf "images".data "secret".data = false
    ∧ Event.s3PutEv "secret"
        ∈ (upload dbImages s3Empty noFaults ⟨"k2", "imgpart", "../secret"⟩ (some 3)).events
    ∧ Event.s3Head "secret"
        ∈ (deleteOp dbImages s3Secret noFaults ⟨"k2", "imgpart", "../secret"⟩).events := by
  decide

end Contenttruck
